import Mathlib

/-!
Verification development for the donrecords_site order / payment / session-booking
lifecycle core. The definitions below are a shallow embedding of models.py and of
the request handlers in blueprints/admin/routes.py, blueprints/payments/routes.py,
blueprints/artist/routes.py and blueprints/producer/routes.py. Python floats used
for money are modelled as rationals; datetimes as natural-number ticks; dates as
day numbers; times of day as minutes after midnight. Database rows are Lean
structures held in lists; commits are modelled by returning the updated lists.
-/

namespace DonRecords

/-- models.py OrderStatus enum. -/
inductive OrderStatus
  | pending
  | paid
  | shipped
  | delivered
  | cancelled
deriving DecidableEq, Repr

/-- The .value string of each OrderStatus member. -/
def OrderStatus.value : OrderStatus → String
  | .pending => "pending"
  | .paid => "paid"
  | .shipped => "shipped"
  | .delivered => "delivered"
  | .cancelled => "cancelled"

/-- OrderStatus(s): parse a status string, none when s is not a member value
(the handlers check membership in the value list before constructing). -/
def OrderStatus.ofValue? (s : String) : Option OrderStatus :=
  if s = "pending" then some .pending
  else if s = "paid" then some .paid
  else if s = "shipped" then some .shipped
  else if s = "delivered" then some .delivered
  else if s = "cancelled" then some .cancelled
  else none

/-- models.py TransactionStatus enum. -/
inductive TransactionStatus
  | pending
  | completed
  | failed
  | refunded
deriving DecidableEq, Repr

/-- models.py SessionStatus enum. -/
inductive SessionStatus
  | requested
  | confirmed
  | completed
  | cancelled
deriving DecidableEq, Repr

/-- The .value string of each SessionStatus member. -/
def SessionStatus.value : SessionStatus → String
  | .requested => "requested"
  | .confirmed => "confirmed"
  | .completed => "completed"
  | .cancelled => "cancelled"

/-- SessionStatus(s): parse a status string, none when not a member value. -/
def SessionStatus.ofValue? (s : String) : Option SessionStatus :=
  if s = "requested" then some .requested
  else if s = "confirmed" then some .confirmed
  else if s = "completed" then some .completed
  else if s = "cancelled" then some .cancelled
  else none

/-- models.py PaymentMethod enum. -/
inductive PaymentMethod
  | paypal
  | mpesa
deriving DecidableEq, Repr

/-- PaymentMethod(s): parse, none when s is neither member value
(the Python constructor raises ValueError there). -/
def PaymentMethod.ofValue? (s : String) : Option PaymentMethod :=
  if s = "paypal" then some .paypal
  else if s = "mpesa" then some .mpesa
  else none

/-- models.py UserRole enum. -/
inductive UserRole
  | admin
  | producer
  | artist
  | user
deriving DecidableEq, Repr

/-- The fields of models.User that the lifecycle core reads. -/
structure User where
  id : Nat
  role : UserRole
  is_approved : Bool
  full_name : String
deriving DecidableEq, Repr

/-- models.Order. Timestamps paid_at / shipped_at / delivered_at are optional ticks. -/
structure Order where
  id : Nat
  order_number : String
  status : OrderStatus
  total_amount : ℚ
  shipping_address : String
  shipping_city : String
  shipping_country : String
  shipping_postal_code : String
  shipping_fee : ℚ
  notes : Option String
  customer_id : Option Nat
  paid_at : Option Nat
  shipped_at : Option Nat
  delivered_at : Option Nat
deriving DecidableEq, Repr

/-- models.OrderItem: immutable snapshot of price and quantity; item_type is
the discriminator string with exactly the matching foreign key set. -/
structure OrderItem where
  order_id : Nat
  quantity : Nat
  price : ℚ
  item_type : String
  beat_id : Option Nat
  merchandise_id : Option Nat
deriving DecidableEq, Repr

/-- The stored JSON blob in Transaction.payment_details: the session_id key when
present (the session-payment shape), plus the rest of the payload kept opaque. -/
structure PaymentDetails where
  session_id : Option Nat
  extra : String
deriving DecidableEq, Repr

/-- models.Transaction. payment_details is none until first written. -/
structure Transaction where
  transaction_id : String
  amount : ℚ
  currency : String
  status : TransactionStatus
  payment_method : Option PaymentMethod
  payment_details : Option PaymentDetails
  order_id : Option Nat
deriving DecidableEq, Repr

/-- Transaction.get_payment_details: the parsed blob, or the empty dict when unset. -/
def Transaction.get_payment_details (t : Transaction) : PaymentDetails :=
  t.payment_details.getD { session_id := none, extra := "" }

/-- models.SessionBooking. session_date is a day number, times are minutes
after midnight, so the Python date/time comparisons become Nat comparisons. -/
structure SessionBooking where
  id : Nat
  session_date : Nat
  start_time : Nat
  end_time : Nat
  purpose : String
  status : SessionStatus
  price : ℚ
  is_paid : Bool
  notes : Option String
  artist_id : Nat
  producer_id : Nat
deriving DecidableEq, Repr

/-- models.Message (the fields written by the lifecycle handlers). -/
structure Message where
  subject : String
  body : String
  sender_id : Nat
  recipient_id : Option Nat
deriving DecidableEq, Repr

/-- The persisted store: one list per table touched by the lifecycle core. -/
structure DB where
  users : List User
  orders : List Order
  transactions : List Transaction
  sessions : List SessionBooking
  messages : List Message
deriving DecidableEq, Repr

/-- Order.query.get by primary key. -/
def DB.findOrder (db : DB) (oid : Nat) : Option Order :=
  db.orders.find? (fun o => o.id == oid)

/-- Transaction.query.filter_by(transaction_id=tid).first(). -/
def DB.findTransaction (db : DB) (tid : String) : Option Transaction :=
  db.transactions.find? (fun t => t.transaction_id == tid)

/-- SessionBooking.query.get by primary key. -/
def DB.findSession (db : DB) (sid : Nat) : Option SessionBooking :=
  db.sessions.find? (fun b => b.id == sid)

/-- User.query.get by primary key. -/
def DB.findUser (db : DB) (uid : Nat) : Option User :=
  db.users.find? (fun u => u.id == uid)

/-- Commit of an in-place mutation of the order row with the given id. -/
def DB.setOrderAt (db : DB) (oid : Nat) (f : Order → Order) : DB :=
  { db with orders := db.orders.map (fun o => if o.id == oid then f o else o) }

/-- Commit of an in-place mutation of the transaction row with the given
external transaction_id (unique, indexed). -/
def DB.setTransactionAt (db : DB) (tid : String) (f : Transaction → Transaction) : DB :=
  { db with transactions :=
      db.transactions.map (fun t => if t.transaction_id == tid then f t else t) }

/-- Commit of an in-place mutation of the session-booking row with the given id. -/
def DB.setSessionAt (db : DB) (sid : Nat) (f : SessionBooking → SessionBooking) : DB :=
  { db with sessions := db.sessions.map (fun b => if b.id == sid then f b else b) }

/-- db.session.add(message) followed by commit. -/
def DB.addMessage (db : DB) (m : Message) : DB :=
  { db with messages := db.messages ++ [m] }

/-- Python truthiness of an optional form string: present and non-empty. -/
def truthyStr (o : Option String) : Bool :=
  match o with
  | none => false
  | some s => s != ""

/-- The JSON body posted to the webhook endpoints: the transaction_id and
status keys (each possibly absent), a possible session_id key, and the rest
of the payload kept opaque. -/
structure WebhookPayload where
  transaction_id : Option String
  status : Option String
  session_id : Option Nat
  extra : String
deriving DecidableEq, Repr

/-- set_payment_details(data): the full webhook payload persisted verbatim. -/
def WebhookPayload.toDetails (d : WebhookPayload) : PaymentDetails :=
  { session_id := d.session_id, extra := d.extra }

/-- Outcome of a webhook request: 200 success, 400, 404, or an unhandled
exception (HTTP 500 with the uncommitted changes rolled back). -/
inductive WebhookResult
  | ok
  | badRequest (msg : String)
  | notFound (msg : String)
  | serverError
deriving DecidableEq, Repr

/-- Whether the result is a 400 response. -/
def WebhookResult.is400 : WebhookResult → Bool
  | .badRequest _ => true
  | _ => false

/-- payments/routes.py payment_webhook (POST /payment-webhook).
When status is "completed" the handler reads transaction.order with no check:
a transaction with no resolvable order raises AttributeError before any commit,
so the request fails with the store unchanged (modelled as serverError). -/
def payment_webhook (db : DB) (data : WebhookPayload) (now : Nat) : DB × WebhookResult :=
  match data.transaction_id with
  | none => (db, .badRequest "Missing transaction ID")
  | some tid =>
    if tid = "" then (db, .badRequest "Missing transaction ID")
    else
      match db.findTransaction tid with
      | none => (db, .notFound "Transaction not found")
      | some tx =>
        if data.status == some "completed" then
          match tx.order_id.bind db.findOrder with
          | none => (db, .serverError)
          | some ord =>
            let db1 := db.setTransactionAt tid (fun t =>
              { t with status := .completed, payment_details := some data.toDetails })
            let db2 := db1.setOrderAt ord.id (fun o =>
              { o with status := .paid, paid_at := some now })
            let msg : Message :=
              { subject := "Order " ++ ord.order_number ++ " Payment Confirmed"
                body := "Your payment for order " ++ ord.order_number ++
                  " has been confirmed. Thank you for your purchase!"
                sender_id := 1
                recipient_id := ord.customer_id }
            (db2.addMessage msg, .ok)
        else if data.status == some "failed" then
          (db.setTransactionAt tid (fun t => { t with status := .failed }), .ok)
        else
          (db, .badRequest "Invalid status")

/-- payments/routes.py session_payment_webhook (POST /session-payment-webhook).
In the "completed" branch the transaction and booking updates are committed
before the artist/producer user rows are read; a missing user row then raises
after that commit, so the updates persist but no notification is stored. -/
def session_payment_webhook (db : DB) (data : WebhookPayload) : DB × WebhookResult :=
  match data.transaction_id with
  | none => (db, .badRequest "Missing transaction ID")
  | some tid =>
    if tid = "" then (db, .badRequest "Missing transaction ID")
    else
      match db.findTransaction tid with
      | none => (db, .notFound "Transaction not found")
      | some tx =>
        match tx.get_payment_details.session_id with
        | none => (db, .badRequest "Invalid transaction")
        | some sid =>
          match db.findSession sid with
          | none => (db, .notFound "Session not found")
          | some sb =>
            if data.status == some "completed" then
              let db1 := db.setTransactionAt tid (fun t =>
                { t with status := .completed, payment_details := some data.toDetails })
              let db2 := db1.setSessionAt sid (fun b => { b with is_paid := true })
              match db.findUser sb.artist_id, db.findUser sb.producer_id with
              | some artist, some producer =>
                let m1 : Message :=
                  { subject := "Session Payment Confirmed"
                    body := "Your payment for the session has been confirmed."
                    sender_id := 1
                    recipient_id := some artist.id }
                let m2 : Message :=
                  { subject := "Session Payment Received"
                    body := "Payment has been received for the session with " ++
                      artist.full_name ++ "."
                    sender_id := 1
                    recipient_id := some producer.id }
                ((db2.addMessage m1).addMessage m2, .ok)
              | _, _ => (db2, .serverError)
            else if data.status == some "failed" then
              (db.setTransactionAt tid (fun t => { t with status := .failed }), .ok)
            else
              (db, .badRequest "Invalid status")

/-- admin/routes.py update_order_status (POST /order/NUM/update-status), acting
on the loaded order row. Returns none when the posted status string is not a
valid OrderStatus value (flash and redirect, no mutation); otherwise the
updated order together with the single notification Message sent to the
order's customer. now is the datetime.utcnow() tick; admin_id is current_user.id. -/
def update_order_status (order : Order) (new_status : Option String)
    (notes : Option String) (now : Nat) (admin_id : Nat) : Option (Order × Message) :=
  match new_status.bind OrderStatus.ofValue? with
  | none => none
  | some st =>
    let old_status := order.status
    let o1 := { order with status := st }
    let o2 := if truthyStr notes then { o1 with notes := notes } else o1
    let o3 :=
      if st = .paid ∧ old_status ≠ .paid then { o2 with paid_at := some now }
      else if st = .shipped ∧ old_status ≠ .shipped then { o2 with shipped_at := some now }
      else if st = .delivered ∧ old_status ≠ .delivered then { o2 with delivered_at := some now }
      else o2
    let msg : Message :=
      { subject := "Order " ++ order.order_number ++ " Status Update"
        body := "Your order status has been updated to: " ++ st.value.toUpper ++ "\n\n" ++
          (if truthyStr notes then "Notes: " ++ notes.getD "" else "")
        sender_id := admin_id
        recipient_id := order.customer_id }
    some (o3, msg)

/-- The fields of models.Beat read by the checkout path. -/
structure Beat where
  id : Nat
  title : String
  price : ℚ
  cover_image : String
  is_published : Bool
deriving DecidableEq, Repr

/-- The fields of models.Merchandise read by the checkout path. -/
structure Merchandise where
  id : Nat
  name : String
  price : ℚ
  image : String
  stock_quantity : Int
  is_published : Bool
deriving DecidableEq, Repr

/-- The live catalog tables. -/
structure Catalog where
  beats : List Beat
  merchandise : List Merchandise
deriving DecidableEq, Repr

/-- One entry of the server-side session cart (main/routes.py add_to_cart
stores exactly the keys type, id, quantity — the cart holds no price). -/
structure CartLine where
  type : String
  id : Nat
  quantity : Nat
deriving DecidableEq, Repr

/-- One entry of cart_contents in payments/routes.py checkout: a cart line
re-resolved against the live catalog. -/
structure ResolvedLine where
  id : Nat
  type : String
  name : String
  price : ℚ
  image : String
  quantity : Nat
deriving DecidableEq, Repr

/-- One iteration of the cart_contents loop in checkout: none when the item
is of an unknown type, missing from the catalog, or unpublished (the line is
silently dropped). -/
def resolveLine (catalog : Catalog) (item : CartLine) : Option ResolvedLine :=
  if item.type = "beat" then
    match catalog.beats.find? (fun b => b.id == item.id) with
    | some p =>
      if p.is_published then
        some { id := p.id, type := "beat", name := p.title, price := p.price,
               image := p.cover_image, quantity := item.quantity }
      else none
    | none => none
  else if item.type = "merchandise" then
    match catalog.merchandise.find? (fun m => m.id == item.id) with
    | some p =>
      if p.is_published then
        some { id := p.id, type := "merchandise", name := p.name, price := p.price,
               image := p.image, quantity := item.quantity }
      else none
    | none => none
  else none

/-- cart_contents: the cart re-resolved against the live catalog. -/
def cartContents (catalog : Catalog) (cart : List CartLine) : List ResolvedLine :=
  cart.filterMap (resolveLine catalog)

/-- total: the running sum accumulated alongside cart_contents,
price times quantity per resolved line. -/
def cartTotal (catalog : Catalog) (cart : List CartLine) : ℚ :=
  (cartContents catalog cart).foldl (fun acc l => acc + l.price * (l.quantity : ℚ)) 0

/-- The OrderItem built for one resolved line (beat_id set for beat lines,
merchandise_id for merchandise lines). -/
def mkOrderItem (oid : Nat) (l : ResolvedLine) : OrderItem :=
  { order_id := oid
    quantity := l.quantity
    price := l.price
    item_type := l.type
    beat_id := if l.type = "beat" then some l.id else none
    merchandise_id := if l.type = "merchandise" then some l.id else none }

/-- merch.update_stock(-quantity) for one resolved line: a no-op for beat lines. -/
def applyStock (catalog : Catalog) (l : ResolvedLine) : Catalog :=
  if l.type = "merchandise" then
    { catalog with merchandise := catalog.merchandise.map (fun m =>
        if m.id == l.id then { m with stock_quantity := m.stock_quantity - (l.quantity : Int) }
        else m) }
  else catalog

/-- All stock decrements performed by the checkout item loop, in order. -/
def applyStockAll (catalog : Catalog) (ls : List ResolvedLine) : Catalog :=
  ls.foldl applyStock catalog

/-- The shipping / payment form posted to checkout. -/
structure CheckoutForm where
  shipping_address : Option String
  shipping_city : Option String
  shipping_country : Option String
  shipping_postal_code : Option String
  payment_method : Option String
  notes : Option String
deriving DecidableEq, Repr

/-- The all([...]) guard over the five required checkout form fields. -/
def checkoutFieldsPresent (f : CheckoutForm) : Bool :=
  truthyStr f.shipping_address && truthyStr f.shipping_city &&
  truthyStr f.shipping_country && truthyStr f.shipping_postal_code &&
  truthyStr f.payment_method

/-- Outcome of a checkout POST. invalidPaymentMethod is the unhandled
ValueError raised by PaymentMethod(payment_method) at transaction creation:
stock decrements for merchandise lines were already committed inside
update_stock by then (the flushed order rows swept along by those commits
are not reported here since no transaction row ever links to them). -/
inductive CheckoutResult
  | emptyCart
  | notAuthenticated
  | missingFields
  | invalidPaymentMethod
  | success (order : Order) (items : List OrderItem) (tx : Transaction)
deriving DecidableEq, Repr

/-- payments/routes.py checkout (POST /checkout). user is
current_user when authenticated; oid is the order id assigned at flush;
order_number and tx_uuid are the generated order number and transaction UUID.
Returns the catalog after stock updates, the session cart afterwards, and the
outcome. -/
def checkout (catalog : Catalog) (cart : List CartLine) (user : Option Nat)
    (form : CheckoutForm) (oid : Nat) (order_number : String) (tx_uuid : String) :
    Catalog × List CartLine × CheckoutResult :=
  if cart.isEmpty then (catalog, cart, .emptyCart)
  else
    let contents := cartContents catalog cart
    let total := cartTotal catalog cart
    match user with
    | none => (catalog, cart, .notAuthenticated)
    | some uid =>
      if ¬ checkoutFieldsPresent form then (catalog, cart, .missingFields)
      else
        let order : Order :=
          { id := oid
            order_number := order_number
            status := .pending
            total_amount := total
            shipping_address := (form.shipping_address).getD ""
            shipping_city := (form.shipping_city).getD ""
            shipping_country := (form.shipping_country).getD ""
            shipping_postal_code := (form.shipping_postal_code).getD ""
            shipping_fee := 0
            notes := form.notes
            customer_id := some uid
            paid_at := none
            shipped_at := none
            delivered_at := none }
        let items := contents.map (mkOrderItem oid)
        let catalog1 := applyStockAll catalog contents
        match (form.payment_method).bind PaymentMethod.ofValue? with
        | none => (catalog1, cart, .invalidPaymentMethod)
        | some pm =>
          let tx : Transaction :=
            { transaction_id := tx_uuid
              amount := total
              currency := "USD"
              status := .pending
              payment_method := some pm
              payment_details := none
              order_id := some oid }
          (catalog1, [], .success order items tx)

/-- The form posted to artist/routes.py book_session, with date and times
already parsed (strptime failure leads to the same reject-without-mutation
redirect as a missing field). producer_id of 0 is falsy in the all([...])
guard, like an absent field. -/
structure BookSessionForm where
  producer_id : Option Nat
  session_date : Option Nat
  start_time : Option Nat
  end_time : Option Nat
  purpose : Option String
deriving DecidableEq, Repr

/-- The three-way time-overlap disjunction of the scheduling-conflict query. -/
def overlapCond (s e : Nat) (b : SessionBooking) : Prop :=
  (b.start_time ≤ s ∧ b.end_time > s) ∨
  (b.start_time < e ∧ b.end_time ≥ e) ∨
  (b.start_time ≥ s ∧ b.end_time ≤ e)

instance (s e : Nat) (b : SessionBooking) : Decidable (overlapCond s e b) := by
  unfold overlapCond; infer_instance

/-- The full filter of the scheduling-conflict query in book_session. -/
def conflictsWith (pid d s e : Nat) (b : SessionBooking) : Bool :=
  b.producer_id == pid && b.session_date == d &&
  !(b.status == SessionStatus.cancelled) && decide (overlapCond s e b)

/-- Outcome of a book_session POST. -/
inductive BookResult
  | fieldsMissing
  | dateInPast
  | invalidTimes
  | producerUnavailable
  | conflict
  | booked (sid : Nat)
deriving DecidableEq, Repr

/-- artist/routes.py book_session (POST /book-session). artist_id is
current_user.id, today is date.today(), new_id the id assigned to the new row. -/
def book_session (db : DB) (artist_id : Nat) (form : BookSessionForm)
    (today : Nat) (new_id : Nat) : DB × BookResult :=
  match form.producer_id, form.session_date, form.start_time, form.end_time, form.purpose with
  | some pid, some d, some s, some e, some purpose =>
    if pid = 0 ∨ purpose = "" then (db, .fieldsMissing)
    else if d < today then (db, .dateInPast)
    else if s ≥ e then (db, .invalidTimes)
    else
      match db.users.find? (fun u =>
          u.id == pid && u.role == UserRole.producer && u.is_approved) with
      | none => (db, .producerUnavailable)
      | some _ =>
        match db.sessions.find? (conflictsWith pid d s e) with
        | some _ => (db, .conflict)
        | none =>
          let duration_hours : ℚ := (((e - s) * 60 : Nat) : ℚ) / 3600
          let duration_hours := max 2 duration_hours
          let price := duration_hours * 50
          let nb : SessionBooking :=
            { id := new_id
              session_date := d
              start_time := s
              end_time := e
              purpose := purpose
              status := .requested
              price := price
              is_paid := false
              notes := none
              artist_id := artist_id
              producer_id := pid }
          let msg : Message :=
            { subject := "New Session Booking Request"
              body := "You have a new session booking request."
              sender_id := artist_id
              recipient_id := some pid }
          ({ db with sessions := db.sessions ++ [nb],
                     messages := db.messages ++ [msg] }, .booked new_id)
  | _, _, _, _, _ => (db, .fieldsMissing)

/-- Outcome of the artist cancel-session POST. -/
inductive CancelResult
  | notFound
  | notCancellable
  | ok
deriving DecidableEq, Repr

/-- artist/routes.py cancel_session (POST /cancel-session/ID): the session is
loaded by (id, artist_id); cancellation is refused from CANCELLED or COMPLETED
with no mutation; otherwise the status becomes CANCELLED and one notification
Message goes to the producer. -/
def cancel_session (db : DB) (artist_id : Nat) (session_id : Nat) : DB × CancelResult :=
  match db.sessions.find? (fun b => b.id == session_id && b.artist_id == artist_id) with
  | none => (db, .notFound)
  | some sb =>
    if sb.status = .cancelled ∨ sb.status = .completed then (db, .notCancellable)
    else
      let db1 := db.setSessionAt session_id (fun b => { b with status := .cancelled })
      let msg : Message :=
        { subject := "Session Booking Cancelled"
          body := "The session booking has been cancelled by the artist."
          sender_id := artist_id
          recipient_id := some sb.producer_id }
      (db1.addMessage msg, .ok)

/-- Outcome of the producer update-session-status POST. -/
inductive UpdateSessionResult
  | notFound
  | invalidStatus
  | updated
deriving DecidableEq, Repr

/-- producer/routes.py update_session_status (POST /session/ID/update-status):
the session is loaded by (id, producer_id); an invalid status string is
refused with no mutation; otherwise status is overwritten, notes overwritten
when provided non-empty, and one Message goes to the artist. -/
def update_session_status (db : DB) (producer_id : Nat) (session_id : Nat)
    (new_status : Option String) (notes : Option String) : DB × UpdateSessionResult :=
  match db.sessions.find? (fun b => b.id == session_id && b.producer_id == producer_id) with
  | none => (db, .notFound)
  | some sb =>
    match new_status.bind SessionStatus.ofValue? with
    | none => (db, .invalidStatus)
    | some st =>
      let db1 := db.setSessionAt session_id (fun b =>
        let b1 := { b with status := st }
        if truthyStr notes then { b1 with notes := notes } else b1)
      let msg : Message :=
        { subject := "Session Status Updated: " ++ st.value.capitalize
          body := "Your session booking has been updated to " ++ st.value.capitalize ++
            ".\n\n" ++ (if truthyStr notes then notes.getD "" else "")
          sender_id := producer_id
          recipient_id := some sb.artist_id }
      (db1.addMessage msg, .updated)

/-- Updating every element matching p, when the update preserves p,
moves find? to the updated witness. -/
theorem find_update_of_find {α : Type} (p : α → Bool) (f : α → α) :
    ∀ (l : List α) (a : α), l.find? p = some a → p (f a) = true →
      (l.map fun x => if p x then f x else x).find? p = some (f a) := by
  intro l
  induction l with
  | nil => intro a h _; simp [List.find?] at h
  | cons x xs ih =>
    intro a h hf
    by_cases hx : p x = true
    · rw [List.find?_cons_of_pos _ hx] at h
      cases h
      simp only [List.map, if_pos hx]
      exact List.find?_cons_of_pos _ hf
    · have hx' : p x = false := by simpa using hx
      rw [List.find?_cons_of_neg _ (by simp [hx'])] at h
      simp only [List.map, if_neg (by simp [hx'] : ¬ p x = true)]
      rw [List.find?_cons_of_neg _ (by simp [hx'])]
      exact ih a h hf

/-- A conditional in-place update is invisible to any observation g
that the update function preserves. -/
theorem map_update_frame {α β : Type} (p : α → Bool) (f : α → α) (g : α → β)
    (hg : ∀ x, g (f x) = g x) :
    ∀ l : List α, (l.map fun x => if p x then f x else x).map g = l.map g := by
  intro l
  induction l with
  | nil => rfl
  | cons x xs ih =>
    by_cases hx : p x = true <;> simp [hx, hg, ih]

/-- Folding addition of g over a list from a is a plus the sum of the map. -/
theorem foldl_add_eq_add_sum {β : Type} (g : β → ℚ) :
    ∀ (l : List β) (a : ℚ), l.foldl (fun acc x => acc + g x) a = a + (l.map g).sum := by
  intro l
  induction l with
  | nil => intro a; simp
  | cons x xs ih => intro a; simp [List.foldl, ih, add_assoc]

/-- C9: for every admin order-status update with a valid target status, exactly one
Message is sent to the order's customer reporting the new status and notes, even when
the target status equals the order's current status (no hypothesis below compares the
target with the current status: the notification is unconditional on an actual change). -/
theorem C9_admin_update_always_notifies (order : Order) (s : String) (st : OrderStatus)
    (notes : Option String) (now admin_id : Nat)
    (hst : OrderStatus.ofValue? s = some st) :
    ∃ o', update_order_status order (some s) notes now admin_id =
      some (o',
        { subject := "Order " ++ order.order_number ++ " Status Update"
          body := "Your order status has been updated to: " ++ st.value.toUpper ++ "\n\n" ++
            (if truthyStr notes then "Notes: " ++ notes.getD "" else "")
          sender_id := admin_id
          recipient_id := order.customer_id }) := by
  unfold update_order_status
  rw [Option.some_bind, hst]
  exact ⟨_, rfl⟩

/-- C9 witness: a concrete update whose target status equals the current status
(PAID to PAID) still produces the notification message. -/
theorem C9_witness :
    OrderStatus.ofValue? "paid" = some OrderStatus.paid ∧
    ∃ o', update_order_status
        { id := 1, order_number := "DR1", status := OrderStatus.paid, total_amount := 20,
          shipping_address := "a", shipping_city := "b", shipping_country := "c",
          shipping_postal_code := "d", shipping_fee := 0, notes := none,
          customer_id := some 2, paid_at := some 5, shipped_at := none, delivered_at := none }
        (some "paid") none 9 1 =
      some (o',
        { subject := "Order " ++ "DR1" ++ " Status Update"
          body := "Your order status has been updated to: " ++
            (OrderStatus.paid).value.toUpper ++ "\n\n" ++
            (if truthyStr none then "Notes: " ++ (none : Option String).getD "" else "")
          sender_id := 1
          recipient_id := some 2 }) :=
  ⟨rfl, C9_admin_update_always_notifies _ "paid" OrderStatus.paid none 9 1 rfl⟩

/-- The full effect of payment_webhook on the completed branch, shared by the
order-timestamp and webhook-dispatch analyses. -/
theorem payment_webhook_completed_eq (db : DB) (data : WebhookPayload) (now : Nat)
    (tid : String) (tx : Transaction) (oid : Nat) (ord : Order)
    (htid : data.transaction_id = some tid) (hne : tid ≠ "")
    (htx : db.findTransaction tid = some tx)
    (hst : data.status = some "completed")
    (hoid : tx.order_id = some oid) (hord : db.findOrder oid = some ord) :
    payment_webhook db data now =
      (((db.setTransactionAt tid (fun t =>
          { t with status := .completed, payment_details := some data.toDetails })).setOrderAt
            oid (fun o => { o with status := .paid, paid_at := some now })).addMessage
        { subject := "Order " ++ ord.order_number ++ " Payment Confirmed"
          body := "Your payment for order " ++ ord.order_number ++
            " has been confirmed. Thank you for your purchase!"
          sender_id := 1
          recipient_id := ord.customer_id }, .ok) := by
  have hident : ord.id = oid := by
    have := List.find?_some hord
    simpa using this
  unfold payment_webhook
  rw [htid]
  simp only [if_neg hne, htx, hst, beq_self_eq_true, if_true, hoid, Option.some_bind,
    hord, hident]

/-- Orders of the database after the completed branch of payment_webhook. -/
theorem payment_webhook_completed_orders (db : DB) (data : WebhookPayload) (now : Nat)
    (tid : String) (tx : Transaction) (oid : Nat) (ord : Order)
    (htid : data.transaction_id = some tid) (hne : tid ≠ "")
    (htx : db.findTransaction tid = some tx)
    (hst : data.status = some "completed")
    (hoid : tx.order_id = some oid) (hord : db.findOrder oid = some ord) :
    (payment_webhook db data now).1.orders.find? (fun o => o.id == oid) =
      some { ord with status := .paid, paid_at := some now } := by
  rw [payment_webhook_completed_eq db data now tid tx oid ord htid hne htx hst hoid hord]
  show ((db.orders.map fun o =>
      if o.id == oid then { o with status := OrderStatus.paid, paid_at := some now } else o).find?
        fun o => o.id == oid) = _
  have hp : ((fun o : Order => o.id == oid) { ord with status := OrderStatus.paid, paid_at := some now }) = true := by
    have := List.find?_some hord
    simpa using this
  exact find_update_of_find _ _ db.orders ord hord hp

/-- Transactions of the database after the completed branch of payment_webhook. -/
theorem payment_webhook_completed_transactions (db : DB) (data : WebhookPayload) (now : Nat)
    (tid : String) (tx : Transaction) (oid : Nat) (ord : Order)
    (htid : data.transaction_id = some tid) (hne : tid ≠ "")
    (htx : db.findTransaction tid = some tx)
    (hst : data.status = some "completed")
    (hoid : tx.order_id = some oid) (hord : db.findOrder oid = some ord) :
    (payment_webhook db data now).1.transactions.find? (fun t => t.transaction_id == tid) =
      some { tx with status := .completed, payment_details := some data.toDetails } := by
  rw [payment_webhook_completed_eq db data now tid tx oid ord htid hne htx hst hoid hord]
  show ((db.transactions.map fun t =>
      if t.transaction_id == tid then
        { t with status := TransactionStatus.completed, payment_details := some data.toDetails }
      else t).find? fun t => t.transaction_id == tid) = _
  have hp : ((fun t : Transaction => t.transaction_id == tid)
      { tx with status := TransactionStatus.completed, payment_details := some data.toDetails }) = true := by
    have := List.find?_some htx
    simpa using this
  exact find_update_of_find _ _ db.transactions tx htx hp

/-- An order already in PAID with paid_at stamped at tick 5. -/
def c1_order : Order :=
  { id := 1, order_number := "DRX", status := .paid, total_amount := 20,
    shipping_address := "a", shipping_city := "b", shipping_country := "c",
    shipping_postal_code := "d", shipping_fee := 0, notes := none, customer_id := some 2,
    paid_at := some 5, shipped_at := none, delivered_at := none }

/-- The completed transaction linked to c1_order. -/
def c1_tx : Transaction :=
  { transaction_id := "t1", amount := 20, currency := "USD", status := .completed,
    payment_method := some .paypal, payment_details := none, order_id := some 1 }

/-- A store holding c1_order and c1_tx. -/
def c1_db : DB :=
  { users := [], orders := [c1_order], transactions := [c1_tx], sessions := [], messages := [] }

/-- A replayed completed webhook call for c1_tx. -/
def c1_payload : WebhookPayload :=
  { transaction_id := some "t1", status := some "completed", session_id := none, extra := "" }

/-- C1 counterexample: the order is already in PAID with paid_at set at tick 5; a
replayed completed webhook call at tick 9 re-enters PAID and overwrites paid_at to 9,
so the timestamp is not preserved across a transition that re-enters the same status. -/
theorem C1_counterexample :
    c1_order.status = OrderStatus.paid ∧ c1_order.paid_at = some 5 ∧
    (payment_webhook c1_db c1_payload 9).1.orders.map Order.paid_at = [some 9] :=
  ⟨rfl, rfl, rfl⟩

/-- C1 amended: the admin update stamps paid_at / shipped_at / delivered_at exactly
when the target status differs from the current one — so a self-transition preserves
the stamp, but leaving a status and re-entering it later re-stamps (overwriting the
first value); and the payment webhook stamps paid_at unconditionally on every
completed call, overwriting any earlier value. -/
theorem C1_amended_timestamps :
    (∀ (order : Order) (s : String) (st : OrderStatus) (notes : Option String)
        (now admin_id : Nat), OrderStatus.ofValue? s = some st →
      ∃ o' msg, update_order_status order (some s) notes now admin_id = some (o', msg) ∧
        o'.paid_at = (if st = .paid ∧ order.status ≠ .paid then some now else order.paid_at) ∧
        o'.shipped_at =
          (if st = .shipped ∧ order.status ≠ .shipped then some now else order.shipped_at) ∧
        o'.delivered_at =
          (if st = .delivered ∧ order.status ≠ .delivered then some now
           else order.delivered_at)) ∧
    (∀ (db : DB) (data : WebhookPayload) (now : Nat) (tid : String) (tx : Transaction)
        (oid : Nat) (ord : Order),
      data.transaction_id = some tid → tid ≠ "" →
      db.findTransaction tid = some tx →
      data.status = some "completed" →
      tx.order_id = some oid → db.findOrder oid = some ord →
      (payment_webhook db data now).1.orders.find? (fun o => o.id == oid) =
        some { ord with status := .paid, paid_at := some now }) := by
  constructor
  · intro order s st notes now admin_id hst
    unfold update_order_status
    rw [Option.some_bind, hst]
    refine ⟨_, _, rfl, ?_, ?_, ?_⟩ <;>
    · by_cases hn : truthyStr notes = true <;>
      by_cases h1 : st = OrderStatus.paid ∧ order.status ≠ OrderStatus.paid <;>
      by_cases h2 : st = OrderStatus.shipped ∧ order.status ≠ OrderStatus.shipped <;>
      by_cases h3 : st = OrderStatus.delivered ∧ order.status ≠ OrderStatus.delivered <;>
      simp [hn, h1, h2, h3]
  · intro db data now tid tx oid ord htid hne htx hst hoid hord
    exact payment_webhook_completed_orders db data now tid tx oid ord htid hne htx hst hoid hord

/-- C1 amended witness: a concrete self-transition (PAID to PAID) keeps paid_at,
and the concrete replayed webhook call restamps paid_at to the call tick. -/
theorem C1_amended_witness :
    (OrderStatus.ofValue? "paid" = some OrderStatus.paid ∧
      ∃ o' msg, update_order_status c1_order (some "paid") none 9 1 = some (o', msg) ∧
        o'.paid_at = (if OrderStatus.paid = .paid ∧ c1_order.status ≠ .paid then some 9
          else c1_order.paid_at) ∧
        o'.shipped_at = (if OrderStatus.paid = .shipped ∧ c1_order.status ≠ .shipped then some 9
          else c1_order.shipped_at) ∧
        o'.delivered_at =
          (if OrderStatus.paid = .delivered ∧ c1_order.status ≠ .delivered then some 9
           else c1_order.delivered_at)) ∧
    (payment_webhook c1_db c1_payload 9).1.orders.find? (fun o => o.id == 1) =
      some { c1_order with status := .paid, paid_at := some 9 } :=
  ⟨⟨rfl, C1_amended_timestamps.1 c1_order "paid" OrderStatus.paid none 9 1 rfl⟩,
   C1_amended_timestamps.2 c1_db c1_payload 9 "t1" c1_tx 1 c1_order rfl (by decide) rfl rfl
     rfl rfl⟩

/-- On the completed branch of session_payment_webhook the committed transaction
and booking updates are the same whether or not the notification users resolve. -/
theorem session_webhook_completed_effect (db : DB) (data : WebhookPayload)
    (tid : String) (tx : Transaction) (sid : Nat) (sb : SessionBooking)
    (htid : data.transaction_id = some tid) (hne : tid ≠ "")
    (htx : db.findTransaction tid = some tx)
    (hsid : tx.get_payment_details.session_id = some sid)
    (hsb : db.findSession sid = some sb)
    (hst : data.status = some "completed") :
    (session_payment_webhook db data).1.transactions.find?
        (fun t => t.transaction_id == tid) =
      some { tx with status := .completed, payment_details := some data.toDetails } ∧
    (session_payment_webhook db data).1.sessions.find? (fun b => b.id == sid) =
      some { sb with is_paid := true } := by
  have hptx : ((fun t : Transaction => t.transaction_id == tid)
      { tx with status := TransactionStatus.completed,
                payment_details := some data.toDetails }) = true := by
    have := List.find?_some htx
    simpa using this
  have hpsb : ((fun b : SessionBooking => b.id == sid)
      { sb with is_paid := true }) = true := by
    have := List.find?_some hsb
    simpa using this
  unfold session_payment_webhook
  rw [htid]
  simp only [if_neg hne, htx, hsid, hsb, hst, beq_self_eq_true, if_true]
  rcases ha : db.findUser sb.artist_id with _ | artist <;>
  rcases hp : db.findUser sb.producer_id with _ | producer <;>
  · constructor
    · show ((db.transactions.map fun t =>
          if t.transaction_id == tid then
            { t with status := TransactionStatus.completed,
                     payment_details := some data.toDetails }
          else t).find? fun t => t.transaction_id == tid) = _
      exact find_update_of_find _ _ db.transactions tx htx hptx
    · show ((db.sessions.map fun b =>
          if b.id == sid then { b with is_paid := true } else b).find?
            fun b => b.id == sid) = _
      exact find_update_of_find _ _ db.sessions sb hsb hpsb

/-- A pending order of a goods checkout. -/
def c3_order : Order :=
  { id := 1, order_number := "DRY", status := .pending, total_amount := 20,
    shipping_address := "a", shipping_city := "b", shipping_country := "c",
    shipping_postal_code := "d", shipping_fee := 0, notes := none, customer_id := some 2,
    paid_at := none, shipped_at := none, delivered_at := none }

/-- The pending goods transaction of c3_order: its stored payment details are
empty (set only later, by webhook callback), so no session_id key is present. -/
def c3_tx : Transaction :=
  { transaction_id := "g1", amount := 20, currency := "USD", status := .pending,
    payment_method := some .paypal, payment_details := none, order_id := some 1 }

/-- A store holding c3_order and c3_tx. -/
def c3_db : DB :=
  { users := [], orders := [c3_order], transactions := [c3_tx], sessions := [], messages := [] }

/-- A completed webhook call for c3_tx posted to the session endpoint. -/
def c3_payload : WebhookPayload :=
  { transaction_id := some "g1", status := some "completed", session_id := none, extra := "" }

/-- C3 counterexample: a webhook call with status completed whose transaction_id
resolves to an existing Transaction whose stored details have no session_id key —
posted to the session endpoint, the handler rejects with 400 and mutates nothing:
the Transaction stays PENDING and the linked Order stays PENDING with paid_at unset,
against the claim that such a call completes the Transaction and pays the Order. -/
theorem C3_counterexample :
    session_payment_webhook c3_db c3_payload = (c3_db, .badRequest "Invalid transaction") ∧
    c3_tx.status = TransactionStatus.pending ∧
    c3_order.status = OrderStatus.pending ∧ c3_order.paid_at = none :=
  ⟨rfl, rfl, rfl, rfl⟩

/-- C3 amended: the effect is selected by the endpoint, not by the session_id key.
A completed call to payment_webhook whose transaction resolves and has a resolvable
linked order completes the Transaction and marks the Order PAID with paid_at stamped,
ignoring the stored details; a completed call to session_payment_webhook whose
transaction resolves and whose stored details carry a session_id referencing an
existing booking completes the Transaction and sets the booking's is_paid (the
session endpoint instead rejects with 400 when the session_id key is absent). -/
theorem C3_amended_webhook_dispatch :
    (∀ (db : DB) (data : WebhookPayload) (now : Nat) (tid : String) (tx : Transaction)
        (oid : Nat) (ord : Order),
      data.transaction_id = some tid → tid ≠ "" →
      db.findTransaction tid = some tx →
      data.status = some "completed" →
      tx.order_id = some oid → db.findOrder oid = some ord →
      (payment_webhook db data now).2 = .ok ∧
      (payment_webhook db data now).1.transactions.find?
          (fun t => t.transaction_id == tid) =
        some { tx with status := .completed, payment_details := some data.toDetails } ∧
      (payment_webhook db data now).1.orders.find? (fun o => o.id == oid) =
        some { ord with status := .paid, paid_at := some now }) ∧
    (∀ (db : DB) (data : WebhookPayload) (tid : String) (tx : Transaction)
        (sid : Nat) (sb : SessionBooking),
      data.transaction_id = some tid → tid ≠ "" →
      db.findTransaction tid = some tx →
      tx.get_payment_details.session_id = some sid →
      db.findSession sid = some sb →
      data.status = some "completed" →
      (session_payment_webhook db data).1.transactions.find?
          (fun t => t.transaction_id == tid) =
        some { tx with status := .completed, payment_details := some data.toDetails } ∧
      (session_payment_webhook db data).1.sessions.find? (fun b => b.id == sid) =
        some { sb with is_paid := true }) ∧
    (∀ (db : DB) (data : WebhookPayload) (tid : String) (tx : Transaction),
      data.transaction_id = some tid → tid ≠ "" →
      db.findTransaction tid = some tx →
      tx.get_payment_details.session_id = none →
      session_payment_webhook db data = (db, .badRequest "Invalid transaction")) := by
  refine ⟨?_, ?_, ?_⟩
  · intro db data now tid tx oid ord htid hne htx hst hoid hord
    refine ⟨?_, ?_, ?_⟩
    · rw [payment_webhook_completed_eq db data now tid tx oid ord htid hne htx hst hoid hord]
    · exact payment_webhook_completed_transactions db data now tid tx oid ord htid hne htx
        hst hoid hord
    · exact payment_webhook_completed_orders db data now tid tx oid ord htid hne htx
        hst hoid hord
  · intro db data tid tx sid sb htid hne htx hsid hsb hst
    exact session_webhook_completed_effect db data tid tx sid sb htid hne htx hsid hsb hst
  · intro db data tid tx htid hne htx hsid
    unfold session_payment_webhook
    rw [htid]
    simp only [if_neg hne, htx, hsid]

/-- A session booking row used to exercise the session-payment branch. -/
def c3w_session : SessionBooking :=
  { id := 7, session_date := 100, start_time := 600, end_time := 720, purpose := "rec",
    status := .confirmed, price := 100, is_paid := false, notes := none,
    artist_id := 3, producer_id := 4 }

/-- The pending session transaction whose stored details carry session_id 7. -/
def c3w_tx : Transaction :=
  { transaction_id := "s1", amount := 100, currency := "USD", status := .pending,
    payment_method := some .mpesa,
    payment_details := some { session_id := some 7, extra := "session_payment" },
    order_id := none }

/-- A store holding the goods rows of c3_db plus the session rows. -/
def c3w_db : DB :=
  { users := [], orders := [c3_order], transactions := [c3_tx, c3w_tx],
    sessions := [c3w_session], messages := [] }

/-- A completed webhook call for the session transaction. -/
def c3w_payload : WebhookPayload :=
  { transaction_id := some "s1", status := some "completed", session_id := none, extra := "" }

/-- C3 amended witness: concrete completed calls to each endpoint — the goods
endpoint pays the linked order, the session endpoint marks booking 7 paid, and the
session endpoint rejects the goods transaction whose details lack session_id. -/
theorem C3_amended_witness :
    ((payment_webhook c3w_db c3_payload 9).2 = .ok ∧
      (payment_webhook c3w_db c3_payload 9).1.transactions.find?
          (fun t => t.transaction_id == "g1") =
        some { c3_tx with status := .completed,
                          payment_details := some c3_payload.toDetails } ∧
      (payment_webhook c3w_db c3_payload 9).1.orders.find? (fun o => o.id == 1) =
        some { c3_order with status := .paid, paid_at := some 9 }) ∧
    ((session_payment_webhook c3w_db c3w_payload).1.transactions.find?
          (fun t => t.transaction_id == "s1") =
        some { c3w_tx with status := .completed,
                           payment_details := some c3w_payload.toDetails } ∧
      (session_payment_webhook c3w_db c3w_payload).1.sessions.find? (fun b => b.id == 7) =
        some { c3w_session with is_paid := true }) ∧
    session_payment_webhook c3w_db c3_payload = (c3w_db, .badRequest "Invalid transaction") :=
  ⟨C3_amended_webhook_dispatch.1 c3w_db c3_payload 9 "g1" c3_tx 1 c3_order rfl (by decide)
      rfl rfl rfl rfl,
   C3_amended_webhook_dispatch.2.1 c3w_db c3w_payload "s1" c3w_tx 7 c3w_session rfl
      (by decide) rfl rfl rfl rfl,
   C3_amended_webhook_dispatch.2.2 c3w_db c3_payload "g1" c3_tx rfl (by decide) rfl rfl⟩

/-- A pending session transaction whose stored session_id 99 references no
existing booking (bookings are hard-deleted when a user is deleted, while
transactions are retained, so such dangling references are reachable). -/
def c4_tx : Transaction :=
  { transaction_id := "d1", amount := 100, currency := "USD", status := .pending,
    payment_method := some .mpesa,
    payment_details := some { session_id := some 99, extra := "session_payment" },
    order_id := none }

/-- A store holding c4_tx and no session bookings. -/
def c4_db : DB :=
  { users := [], orders := [], transactions := [c4_tx], sessions := [], messages := [] }

/-- A webhook call for c4_tx with a status that is neither completed nor failed. -/
def c4_payload : WebhookPayload :=
  { transaction_id := some "d1", status := some "refunded", session_id := none, extra := "" }

/-- C4 counterexample: a webhook call with status "refunded" (neither completed nor
failed) whose transaction resolves, posted to the session endpoint while the stored
session_id references no booking — the handler answers 404, not the claimed 400
(though indeed with no state mutated). -/
theorem C4_counterexample :
    session_payment_webhook c4_db c4_payload = (c4_db, .notFound "Session not found") ∧
    (session_payment_webhook c4_db c4_payload).2.is400 = false :=
  ⟨rfl, rfl⟩

/-- C4 amended: an unresolved transaction_id yields 404 with no mutation on both
endpoints; a status other than completed/failed yields no mutation on both
endpoints and a 400 from payment_webhook, while session_payment_webhook answers
400 when the stored session_id is absent or resolves to a booking, but 404 when
it references no existing booking. -/
theorem C4_amended_rejections :
    (∀ (db : DB) (data : WebhookPayload) (now : Nat) (tid : String),
      data.transaction_id = some tid → tid ≠ "" →
      db.findTransaction tid = none →
      payment_webhook db data now = (db, .notFound "Transaction not found") ∧
      session_payment_webhook db data = (db, .notFound "Transaction not found")) ∧
    (∀ (db : DB) (data : WebhookPayload) (now : Nat) (tid : String) (tx : Transaction),
      data.transaction_id = some tid → tid ≠ "" →
      db.findTransaction tid = some tx →
      data.status ≠ some "completed" → data.status ≠ some "failed" →
      payment_webhook db data now = (db, .badRequest "Invalid status")) ∧
    (∀ (db : DB) (data : WebhookPayload) (tid : String) (tx : Transaction),
      data.transaction_id = some tid → tid ≠ "" →
      db.findTransaction tid = some tx →
      data.status ≠ some "completed" → data.status ≠ some "failed" →
      (session_payment_webhook db data).1 = db ∧
      (session_payment_webhook db data).2 =
        (match tx.get_payment_details.session_id with
         | none => WebhookResult.badRequest "Invalid transaction"
         | some sid =>
           match db.findSession sid with
           | none => WebhookResult.notFound "Session not found"
           | some _ => WebhookResult.badRequest "Invalid status")) := by
  refine ⟨?_, ?_, ?_⟩
  · intro db data now tid htid hne htx
    constructor
    · unfold payment_webhook
      rw [htid]
      simp only [if_neg hne, htx]
    · unfold session_payment_webhook
      rw [htid]
      simp only [if_neg hne, htx]
  · intro db data now tid tx htid hne htx hc hf
    have hc' : (data.status == some "completed") = false := beq_eq_false_iff_ne.mpr hc
    have hf' : (data.status == some "failed") = false := beq_eq_false_iff_ne.mpr hf
    unfold payment_webhook
    rw [htid]
    simp only [if_neg hne, htx, hc', hf', Bool.false_eq_true, if_false]
  · intro db data tid tx htid hne htx hc hf
    have hc' : (data.status == some "completed") = false := beq_eq_false_iff_ne.mpr hc
    have hf' : (data.status == some "failed") = false := beq_eq_false_iff_ne.mpr hf
    unfold session_payment_webhook
    rw [htid]
    simp only [if_neg hne, htx, hc', hf', Bool.false_eq_true, if_false]
    rcases hs : tx.get_payment_details.session_id with _ | sid
    · exact ⟨rfl, rfl⟩
    · rcases hsb : db.findSession sid with _ | sb <;> simp [hsb]

/-- A completed webhook call whose transaction_id matches no transaction in c4_db. -/
def c4w_unknown : WebhookPayload :=
  { transaction_id := some "zz", status := some "completed", session_id := none, extra := "" }

/-- C4 amended witness: concrete calls — an unknown transaction_id answers 404 on
both endpoints; status "refunded" on a resolving transaction answers 400 on the
goods endpoint and, with a dangling stored session_id, 404 on the session endpoint. -/
theorem C4_amended_witness :
    (payment_webhook c4_db c4w_unknown 0 = (c4_db, .notFound "Transaction not found") ∧
     session_payment_webhook c4_db c4w_unknown =
      (c4_db, .notFound "Transaction not found")) ∧
    payment_webhook c4_db c4_payload 0 = (c4_db, .badRequest "Invalid status") ∧
    ((session_payment_webhook c4_db c4_payload).1 = c4_db ∧
      (session_payment_webhook c4_db c4_payload).2 =
        (match c4_tx.get_payment_details.session_id with
         | none => WebhookResult.badRequest "Invalid transaction"
         | some sid =>
           match c4_db.findSession sid with
           | none => WebhookResult.notFound "Session not found"
           | some _ => WebhookResult.badRequest "Invalid status")) :=
  ⟨C4_amended_rejections.1 c4_db _ 0 "zz" rfl (by decide) rfl,
   C4_amended_rejections.2.1 c4_db c4_payload 0 "d1" c4_tx rfl (by decide) rfl
      (by decide) (by decide),
   C4_amended_rejections.2.2 c4_db c4_payload "d1" c4_tx rfl (by decide) rfl
      (by decide) (by decide)⟩

/-- The financial core fields of a Transaction: amount, currency, payment_method. -/
def Transaction.core (t : Transaction) : ℚ × String × Option PaymentMethod :=
  (t.amount, t.currency, t.payment_method)

/-- payment_webhook never changes amount, currency or payment_method of any
transaction, whatever the payload and store. -/
theorem payment_webhook_core_frame (db : DB) (data : WebhookPayload) (now : Nat) :
    (payment_webhook db data now).1.transactions.map Transaction.core =
      db.transactions.map Transaction.core := by
  unfold payment_webhook
  rcases data.transaction_id with _ | tid
  · rfl
  · by_cases hne : tid = ""
    · simp [hne]
    · simp only [if_neg hne]
      rcases htx : db.findTransaction tid with _ | tx
      · rfl
      · cases hc : data.status == some "completed"
        · simp only [hc, Bool.false_eq_true, if_false]
          cases hf : data.status == some "failed"
          · simp only [hf, Bool.false_eq_true, if_false]
          · simp only [hf, if_true]
            show ((db.transactions.map fun t =>
                if t.transaction_id == tid then { t with status := TransactionStatus.failed }
                else t).map Transaction.core) = _
            refine map_update_frame _ _ _ ?_ db.transactions
            intro x
            rfl
        · simp only [hc, if_true]
          rcases ho : tx.order_id.bind db.findOrder with _ | ord
          · rfl
          · show ((db.transactions.map fun t =>
                if t.transaction_id == tid then
                  { t with status := TransactionStatus.completed,
                           payment_details := some data.toDetails }
                else t).map Transaction.core) = _
            refine map_update_frame _ _ _ ?_ db.transactions
            intro x
            rfl

/-- session_payment_webhook never changes amount, currency or payment_method of
any transaction, whatever the payload and store. -/
theorem session_webhook_core_frame (db : DB) (data : WebhookPayload) :
    (session_payment_webhook db data).1.transactions.map Transaction.core =
      db.transactions.map Transaction.core := by
  unfold session_payment_webhook
  rcases data.transaction_id with _ | tid
  · rfl
  · by_cases hne : tid = ""
    · simp [hne]
    · simp only [if_neg hne]
      rcases htx : db.findTransaction tid with _ | tx
      · rfl
      · rcases hs : tx.get_payment_details.session_id with _ | sid
        · simp [hs]
        · rcases hsb : db.findSession sid with _ | sb
          · simp [hs, hsb]
          · simp only [hs, hsb]
            cases hc : data.status == some "completed"
            · simp only [hc, Bool.false_eq_true, if_false]
              cases hf : data.status == some "failed"
              · simp only [hf, Bool.false_eq_true, if_false]
              · simp only [hf, if_true]
                show ((db.transactions.map fun t =>
                    if t.transaction_id == tid then
                      { t with status := TransactionStatus.failed }
                    else t).map Transaction.core) = _
                refine map_update_frame _ _ _ ?_ db.transactions
                intro x
                rfl
            · simp only [hc, if_true]
              rcases ha : db.findUser sb.artist_id with _ | artist <;>
              rcases hp : db.findUser sb.producer_id with _ | producer <;>
              · show ((db.transactions.map fun t =>
                    if t.transaction_id == tid then
                      { t with status := TransactionStatus.completed,
                               payment_details := some data.toDetails }
                    else t).map Transaction.core) = _
                refine map_update_frame _ _ _ ?_ db.transactions
                intro x
                rfl

/-- Re-assigning a Transaction's status to the value it already holds is the
identity on the row. -/
theorem transaction_set_same_status (t : Transaction) (s : TransactionStatus)
    (h : t.status = s) : ({ t with status := s } : Transaction) = t := by
  cases t
  subst h
  rfl

/-- Re-assigning a Transaction's status to the value it already holds while
writing payment_details changes payment_details alone. -/
theorem transaction_set_same_status_details (t : Transaction) (s : TransactionStatus)
    (d : Option PaymentDetails) (h : t.status = s) :
    ({ t with status := s, payment_details := d } : Transaction) =
      { t with payment_details := d } := by
  cases t
  subst h
  rfl

/-- Replay of a terminal status through payment_webhook rewrites at most the
payment_details of the replayed transaction: every other field keeps its value. -/
theorem payment_webhook_replay_only_details (db : DB) (data : WebhookPayload) (now : Nat)
    (tid : String) (tx : Transaction)
    (htid : data.transaction_id = some tid) (hne : tid ≠ "")
    (htx : db.findTransaction tid = some tx)
    (hterm : (tx.status = .completed ∧ data.status = some "completed") ∨
             (tx.status = .failed ∧ data.status = some "failed")) :
    ∃ d, (payment_webhook db data now).1.transactions.find?
        (fun t => t.transaction_id == tid) = some { tx with payment_details := d } := by
  have hp : ((fun t : Transaction => t.transaction_id == tid) tx) = true := by
    have h2 := List.find?_some (show db.transactions.find?
      (fun t => t.transaction_id == tid) = some tx from htx)
    exact h2
  rcases hterm with ⟨hst, hd⟩ | ⟨hst, hd⟩
  · unfold payment_webhook
    rw [htid]
    simp only [if_neg hne, htx, hd, beq_self_eq_true, if_true]
    rcases ho : tx.order_id.bind db.findOrder with _ | ord
    · exact ⟨tx.payment_details, htx⟩
    · refine ⟨some data.toDetails, ?_⟩
      show ((db.transactions.map fun t =>
          if t.transaction_id == tid then
            { t with status := TransactionStatus.completed,
                     payment_details := some data.toDetails }
          else t).find? fun t => t.transaction_id == tid) = _
      rw [find_update_of_find _ _ db.transactions tx htx hp,
        transaction_set_same_status_details tx _ _ hst]
  · have hcf : ((some "failed" : Option String) == some "completed") = false := rfl
    unfold payment_webhook
    rw [htid]
    simp only [if_neg hne, htx, hd, hcf, Bool.false_eq_true, if_false,
      beq_self_eq_true, if_true]
    refine ⟨tx.payment_details, ?_⟩
    show ((db.transactions.map fun t =>
        if t.transaction_id == tid then { t with status := TransactionStatus.failed }
        else t).find? fun t => t.transaction_id == tid) = _
    rw [find_update_of_find _ _ db.transactions tx htx hp,
      transaction_set_same_status tx _ hst]

/-- Replay of a terminal status through session_payment_webhook rewrites at most
the payment_details of the replayed transaction, in every branch of the handler. -/
theorem session_webhook_replay_only_details (db : DB) (data : WebhookPayload)
    (tid : String) (tx : Transaction)
    (htid : data.transaction_id = some tid) (hne : tid ≠ "")
    (htx : db.findTransaction tid = some tx)
    (hterm : (tx.status = .completed ∧ data.status = some "completed") ∨
             (tx.status = .failed ∧ data.status = some "failed")) :
    ∃ d, (session_payment_webhook db data).1.transactions.find?
        (fun t => t.transaction_id == tid) = some { tx with payment_details := d } := by
  have hp : ((fun t : Transaction => t.transaction_id == tid) tx) = true := by
    have h2 := List.find?_some (show db.transactions.find?
      (fun t => t.transaction_id == tid) = some tx from htx)
    exact h2
  unfold session_payment_webhook
  rw [htid]
  simp only [if_neg hne, htx]
  rcases hs : tx.get_payment_details.session_id with _ | sid
  · simp only [hs]
    exact ⟨tx.payment_details, htx⟩
  · simp only [hs]
    rcases hsb : db.findSession sid with _ | sb
    · simp only [hsb]
      exact ⟨tx.payment_details, htx⟩
    · simp only [hsb]
      rcases hterm with ⟨hst, hd⟩ | ⟨hst, hd⟩
      · rw [hd]
        simp only [beq_self_eq_true, if_true]
        rcases ha : db.findUser sb.artist_id with _ | artist <;>
        rcases hpu : db.findUser sb.producer_id with _ | producer <;>
        · refine ⟨some data.toDetails, ?_⟩
          show ((db.transactions.map fun t =>
              if t.transaction_id == tid then
                { t with status := TransactionStatus.completed,
                         payment_details := some data.toDetails }
              else t).find? fun t => t.transaction_id == tid) = _
          rw [find_update_of_find _ _ db.transactions tx htx hp,
            transaction_set_same_status_details tx _ _ hst]
      · have hcf : ((some "failed" : Option String) == some "completed") = false := rfl
        rw [hd]
        simp only [hcf, Bool.false_eq_true, if_false, beq_self_eq_true, if_true]
        refine ⟨tx.payment_details, ?_⟩
        show ((db.transactions.map fun t =>
            if t.transaction_id == tid then { t with status := TransactionStatus.failed }
            else t).find? fun t => t.transaction_id == tid) = _
        rw [find_update_of_find _ _ db.transactions tx htx hp,
          transaction_set_same_status tx _ hst]

/-- C5: replaying a webhook call against a transaction already in a terminal
status, with the same terminal status in the payload, changes at most the
replayed transaction's payment_details on both endpoints — its transaction_id,
amount, currency, status, payment_method and order_id all keep their values
(timestamps, the only other mutable columns, are maintained by the ORM's
onupdate hook and are not part of the row model) — and no transaction's amount,
currency or payment_method moves anywhere in the store. -/
theorem C5_replay_preserves_core (db : DB) (data : WebhookPayload) (now : Nat)
    (tid : String) (tx : Transaction)
    (htid : data.transaction_id = some tid) (hne : tid ≠ "")
    (htx : db.findTransaction tid = some tx)
    (hterm : (tx.status = .completed ∧ data.status = some "completed") ∨
             (tx.status = .failed ∧ data.status = some "failed")) :
    (∃ d, (payment_webhook db data now).1.transactions.find?
        (fun t => t.transaction_id == tid) = some { tx with payment_details := d }) ∧
    (∃ d, (session_payment_webhook db data).1.transactions.find?
        (fun t => t.transaction_id == tid) = some { tx with payment_details := d }) ∧
    (payment_webhook db data now).1.transactions.map Transaction.core =
      db.transactions.map Transaction.core ∧
    (session_payment_webhook db data).1.transactions.map Transaction.core =
      db.transactions.map Transaction.core :=
  ⟨payment_webhook_replay_only_details db data now tid tx htid hne htx hterm,
   session_webhook_replay_only_details db data tid tx htid hne htx hterm,
   payment_webhook_core_frame db data now,
   session_webhook_core_frame db data⟩

/-- C5 witness: replaying the completed webhook on the already completed
transaction of c1_db leaves it equal to itself up to payment_details on both
endpoints, keeping amount 20, currency USD, method paypal, status COMPLETED
and the link to order 1. -/
theorem C5_witness :
    ("t1" ≠ "" ∧ c1_db.findTransaction "t1" = some c1_tx ∧
      c1_tx.status = TransactionStatus.completed) ∧
    (∃ d, (payment_webhook c1_db c1_payload 9).1.transactions.find?
        (fun t => t.transaction_id == "t1") = some { c1_tx with payment_details := d }) ∧
    (∃ d, (session_payment_webhook c1_db c1_payload).1.transactions.find?
        (fun t => t.transaction_id == "t1") = some { c1_tx with payment_details := d }) ∧
    (payment_webhook c1_db c1_payload 9).1.transactions.map Transaction.core =
      c1_db.transactions.map Transaction.core ∧
    (session_payment_webhook c1_db c1_payload).1.transactions.map Transaction.core =
      c1_db.transactions.map Transaction.core :=
  ⟨⟨by decide, rfl, rfl⟩,
   (C5_replay_preserves_core c1_db c1_payload 9 "t1" c1_tx rfl (by decide) rfl
      (Or.inl ⟨rfl, rfl⟩)).1,
   (C5_replay_preserves_core c1_db c1_payload 9 "t1" c1_tx rfl (by decide) rfl
      (Or.inl ⟨rfl, rfl⟩)).2.1,
   (C5_replay_preserves_core c1_db c1_payload 9 "t1" c1_tx rfl (by decide) rfl
      (Or.inl ⟨rfl, rfl⟩)).2.2.1,
   (C5_replay_preserves_core c1_db c1_payload 9 "t1" c1_tx rfl (by decide) rfl
      (Or.inl ⟨rfl, rfl⟩)).2.2.2⟩

/-- C6: a booking request passing field, date, time and producer validation whose
half-open interval overlaps an existing non-cancelled booking of the same producer
on the same date — new start inside the existing interval, new end inside it, or
fully containing it — is rejected as a conflict with the store unchanged, so the
number of REQUESTED bookings stays what it was (one, in the scenario where the
overlapped booking is the only one and is REQUESTED). -/
theorem C6_overlap_rejected (db : DB) (artist_id pid d s e today new_id : Nat)
    (purpose : String) (ex : SessionBooking)
    (hmem : ex ∈ db.sessions)
    (hpid0 : pid ≠ 0) (hpurpose : purpose ≠ "")
    (hdate : today ≤ d) (htimes : s < e)
    (hprod : (db.users.find? (fun u =>
        u.id == pid && u.role == UserRole.producer && u.is_approved)).isSome)
    (hexp : ex.producer_id = pid) (hexd : ex.session_date = d)
    (hexnc : ex.status ≠ .cancelled) (hover : overlapCond s e ex) :
    book_session db artist_id
        { producer_id := some pid, session_date := some d, start_time := some s,
          end_time := some e, purpose := some purpose } today new_id = (db, .conflict) ∧
    (book_session db artist_id
        { producer_id := some pid, session_date := some d, start_time := some s,
          end_time := some e, purpose := some purpose } today new_id).1.sessions.countP
      (fun b => b.status == SessionStatus.requested) =
      db.sessions.countP (fun b => b.status == SessionStatus.requested) := by
  have hcw : conflictsWith pid d s e ex = true := by
    unfold conflictsWith
    simp [hexp, hexd, beq_eq_false_iff_ne.mpr hexnc, decide_eq_true hover]
  have hconf : (db.sessions.find? (conflictsWith pid d s e)).isSome :=
    List.find?_isSome.mpr ⟨ex, hmem, hcw⟩
  obtain ⟨b, hb⟩ := Option.isSome_iff_exists.mp hconf
  obtain ⟨u, hu⟩ := Option.isSome_iff_exists.mp hprod
  have hmain : book_session db artist_id
      { producer_id := some pid, session_date := some d, start_time := some s,
        end_time := some e, purpose := some purpose } today new_id = (db, .conflict) := by
    unfold book_session
    dsimp only
    rw [if_neg (by push_neg; exact ⟨hpid0, hpurpose⟩), if_neg (Nat.not_lt.mpr hdate),
      if_neg (Nat.not_le.mpr htimes), hu, hb]
  exact ⟨hmain, by rw [hmain]⟩

/-- A producer user row for the booking witnesses. -/
def c6_producer : User := { id := 4, role := .producer, is_approved := true, full_name := "P" }

/-- An existing REQUESTED booking of producer 4 on day 100, 10:00 to 12:00
(minutes 600 to 720). -/
def c6_existing : SessionBooking :=
  { id := 1, session_date := 100, start_time := 600, end_time := 720, purpose := "mix",
    status := .requested, price := 100, is_paid := false, notes := none,
    artist_id := 3, producer_id := 4 }

/-- A store holding c6_producer and c6_existing. -/
def c6_db : DB :=
  { users := [c6_producer], orders := [], transactions := [], sessions := [c6_existing],
    messages := [] }

/-- C6 witness: the spec scenario — a second request for producer 4 on the same
day at 11:00 to 13:00 (minutes 660 to 780) overlaps the 10:00 to 12:00 booking
and is rejected with the store unchanged, leaving exactly one REQUESTED booking. -/
theorem C6_witness :
    book_session c6_db 3
        { producer_id := some 4, session_date := some 100, start_time := some 660,
          end_time := some 780, purpose := some "rec" } 50 2 = (c6_db, .conflict) ∧
    (book_session c6_db 3
        { producer_id := some 4, session_date := some 100, start_time := some 660,
          end_time := some 780, purpose := some "rec" } 50 2).1.sessions.countP
      (fun b => b.status == SessionStatus.requested) =
      c6_db.sessions.countP (fun b => b.status == SessionStatus.requested) :=
  C6_overlap_rejected c6_db 3 4 100 660 780 50 2 "rec" c6_existing (by decide)
    (by decide) (by decide) (by decide) (by decide) (by decide) rfl rfl (by decide)
    (by decide)

/-- C7: every successfully created SessionBooking is priced at
max(2, duration_hours) * 50, with duration_hours the length in hours of the
half-open interval from start_time to end_time. -/
theorem C7_price_formula (db : DB) (artist_id pid d s e today new_id : Nat)
    (purpose : String) (u : User)
    (hpid0 : pid ≠ 0) (hpurpose : purpose ≠ "")
    (hdate : today ≤ d) (htimes : s < e)
    (hprod : db.users.find? (fun x =>
        x.id == pid && x.role == UserRole.producer && x.is_approved) = some u)
    (hnoconf : db.sessions.find? (conflictsWith pid d s e) = none) :
    ∃ nb msg, book_session db artist_id
        { producer_id := some pid, session_date := some d, start_time := some s,
          end_time := some e, purpose := some purpose } today new_id =
      ({ db with sessions := db.sessions ++ [nb], messages := db.messages ++ [msg] },
        .booked new_id) ∧
      nb.price = max 2 (((e - s : Nat) : ℚ) / 60) * 50 ∧
      nb.status = .requested ∧ nb.start_time = s ∧ nb.end_time = e := by
  have harg : (((e - s) * 60 : Nat) : ℚ) / 3600 = ((e - s : Nat) : ℚ) / 60 := by
    push_cast
    ring
  unfold book_session
  dsimp only
  rw [if_neg (by push_neg; exact ⟨hpid0, hpurpose⟩), if_neg (Nat.not_lt.mpr hdate),
    if_neg (Nat.not_le.mpr htimes), hprod, hnoconf]
  refine ⟨_, _, rfl, ?_, rfl, rfl, rfl⟩
  show max 2 ((((e - s) * 60 : Nat) : ℚ) / 3600) * 50 = _
  rw [harg]

/-- C7 witness: booking producer 4 for 10:00 to 11:00 (one hour, below the
two-hour minimum) succeeds at price max(2, 1) * 50 = 100. -/
theorem C7_witness :
    ∃ nb msg, book_session c6_db 3
        { producer_id := some 4, session_date := some 101, start_time := some 600,
          end_time := some 660, purpose := some "rec" } 50 2 =
      ({ c6_db with sessions := c6_db.sessions ++ [nb],
                    messages := c6_db.messages ++ [msg] }, .booked 2) ∧
      nb.price = max 2 (((660 - 600 : Nat) : ℚ) / 60) * 50 ∧
      nb.status = .requested ∧ nb.start_time = 600 ∧ nb.end_time = 660 :=
  C7_price_formula c6_db 3 4 101 600 660 50 2 "rec" c6_producer (by decide) (by decide)
    (by decide) (by decide) rfl rfl

/-- C8: an artist-side cancellation on a booking in COMPLETED or CANCELLED fails
with nothing mutated; from any other state the booking becomes CANCELLED, every
other booking row is untouched, and one notification Message goes to the producer. -/
theorem C8_cancel_session (db : DB) (artist_id session_id : Nat) (sb : SessionBooking)
    (hfind : db.sessions.find? (fun b => b.id == session_id && b.artist_id == artist_id) =
      some sb) :
    ((sb.status = .cancelled ∨ sb.status = .completed) →
      cancel_session db artist_id session_id = (db, .notCancellable)) ∧
    (sb.status ≠ .cancelled → sb.status ≠ .completed →
      ∃ msg, (cancel_session db artist_id session_id).2 = .ok ∧
        (cancel_session db artist_id session_id).1.messages = db.messages ++ [msg] ∧
        msg.recipient_id = some sb.producer_id ∧
        { sb with status := SessionStatus.cancelled } ∈
          (cancel_session db artist_id session_id).1.sessions ∧
        (∀ b ∈ db.sessions, b.id ≠ session_id →
          b ∈ (cancel_session db artist_id session_id).1.sessions) ∧
        (∀ b ∈ (cancel_session db artist_id session_id).1.sessions,
          b.status = SessionStatus.cancelled ∨ b ∈ db.sessions)) := by
  have hsid : (sb.id == session_id) = true := by
    have := List.find?_some hfind
    exact (Bool.and_eq_true _ _ |>.mp this).1
  have hmem : sb ∈ db.sessions := List.mem_of_find?_eq_some hfind
  constructor
  · intro hterm
    unfold cancel_session
    rw [hfind]
    dsimp only
    rw [if_pos hterm]
  · intro hc1 hc2
    have hne : ¬ (sb.status = SessionStatus.cancelled ∨ sb.status = SessionStatus.completed) := by
      rintro (h | h)
      · exact hc1 h
      · exact hc2 h
    have heq : cancel_session db artist_id session_id =
        ({ db with
            sessions := db.sessions.map (fun b =>
              if b.id == session_id then { b with status := SessionStatus.cancelled } else b)
            messages := db.messages ++
              [{ subject := "Session Booking Cancelled"
                 body := "The session booking has been cancelled by the artist."
                 sender_id := artist_id
                 recipient_id := some sb.producer_id }] }, .ok) := by
      unfold cancel_session
      rw [hfind]
      dsimp only
      rw [if_neg hne]
      rfl
    refine ⟨_, by rw [heq], by rw [heq], rfl, ?_, ?_, ?_⟩
    · rw [heq]
      have h1 := List.mem_map_of_mem
        (fun b => if b.id == session_id then { b with status := SessionStatus.cancelled } else b)
        hmem
      simpa [hsid] using h1
    · intro b hb hbne
      rw [heq]
      have h1 := List.mem_map_of_mem
        (fun x => if x.id == session_id then { x with status := SessionStatus.cancelled } else x)
        hb
      simpa [beq_eq_false_iff_ne.mpr hbne] using h1
    · intro b hb
      rw [heq] at hb
      obtain ⟨b0, hb0, hb0eq⟩ := List.mem_map.mp hb
      by_cases hid : (b0.id == session_id) = true
      · left
        rw [if_pos hid] at hb0eq
        rw [← hb0eq]
      · right
        rw [if_neg hid] at hb0eq
        rw [← hb0eq]
        exact hb0

/-- A completed booking exercising the refusal branch of the cancellation rule. -/
def c8_done : SessionBooking := { c6_existing with id := 2, status := .completed }

/-- Store with only the completed booking c8_done. -/
def c8_db : DB :=
  { users := [c6_producer], orders := [], transactions := [], sessions := [c8_done],
    messages := [] }

/-- C8 witness: cancelling the concrete COMPLETED booking c8_done is refused with
no mutation, while cancelling the REQUESTED booking of c6_db succeeds, cancels it,
and sends one message to producer 4. -/
theorem C8_witness :
    ((c8_done.status = SessionStatus.cancelled ∨ c8_done.status = SessionStatus.completed) ∧
      cancel_session c8_db 3 2 = (c8_db, .notCancellable)) ∧
    ((c6_existing.status ≠ SessionStatus.cancelled ∧
        c6_existing.status ≠ SessionStatus.completed) ∧
      ∃ msg, (cancel_session c6_db 3 1).2 = .ok ∧
        (cancel_session c6_db 3 1).1.messages = c6_db.messages ++ [msg] ∧
        msg.recipient_id = some c6_existing.producer_id ∧
        { c6_existing with status := SessionStatus.cancelled } ∈
          (cancel_session c6_db 3 1).1.sessions ∧
        (∀ b ∈ c6_db.sessions, b.id ≠ 1 → b ∈ (cancel_session c6_db 3 1).1.sessions) ∧
        (∀ b ∈ (cancel_session c6_db 3 1).1.sessions,
          b.status = SessionStatus.cancelled ∨ b ∈ c6_db.sessions)) :=
  ⟨⟨Or.inr rfl, (C8_cancel_session c8_db 3 2 c8_done rfl).1 (Or.inr rfl)⟩,
   ⟨⟨by decide, by decide⟩,
    (C8_cancel_session c6_db 3 1 c6_existing rfl).2 (by decide) (by decide)⟩⟩

/-- The fields of a SessionBooking that a producer status update must not touch. -/
def SessionBooking.frame (b : SessionBooking) : Nat × Nat × Nat × ℚ × Bool × Nat × Nat :=
  (b.session_date, b.start_time, b.end_time, b.price, b.is_paid, b.artist_id, b.producer_id)

/-- C10: a producer-side session status update never changes session_date,
start_time, end_time, price, is_paid, artist_id or producer_id of any booking,
whatever the starting state; and when no non-empty notes are posted the notes
field is preserved too, so only status (and provided notes) are mutated. -/
theorem C10_update_session_frame (db : DB) (producer_id session_id : Nat)
    (new_status notes : Option String) :
    (update_session_status db producer_id session_id new_status notes).1.sessions.map
        SessionBooking.frame = db.sessions.map SessionBooking.frame ∧
    (truthyStr notes = false →
      (update_session_status db producer_id session_id new_status notes).1.sessions.map
          SessionBooking.notes = db.sessions.map SessionBooking.notes) := by
  unfold update_session_status
  rcases hfind : db.sessions.find?
      (fun b => b.id == session_id && b.producer_id == producer_id) with _ | sb
  · rw [hfind]
    exact ⟨rfl, fun _ => rfl⟩
  · rw [hfind]
    dsimp only
    rcases hst : new_status.bind SessionStatus.ofValue? with _ | st
    · exact ⟨rfl, fun _ => rfl⟩
    · constructor
      · show ((db.sessions.map fun b =>
            if b.id == session_id then
              (fun b =>
                let b1 := { b with status := st }
                if truthyStr notes then { b1 with notes := notes } else b1) b
            else b).map SessionBooking.frame) = _
        refine map_update_frame _ _ _ ?_ db.sessions
        intro x
        by_cases hn : truthyStr notes = true <;>
          simp [hn, SessionBooking.frame]
      · intro hn
        show ((db.sessions.map fun b =>
            if b.id == session_id then
              (fun b =>
                let b1 := { b with status := st }
                if truthyStr notes then { b1 with notes := notes } else b1) b
            else b).map SessionBooking.notes) = _
        refine map_update_frame _ _ _ ?_ db.sessions
        intro x
        simp [hn]

/-- C10 witness: a concrete status update (CONFIRMED, no notes) on c6_db leaves
the frame fields and the notes of every booking unchanged. -/
theorem C10_witness :
    (update_session_status c6_db 4 1 (some "confirmed") none).1.sessions.map
        SessionBooking.frame = c6_db.sessions.map SessionBooking.frame ∧
    (update_session_status c6_db 4 1 (some "confirmed") none).1.sessions.map
        SessionBooking.notes = c6_db.sessions.map SessionBooking.notes :=
  ⟨(C10_update_session_frame c6_db 4 1 (some "confirmed") none).1,
   (C10_update_session_frame c6_db 4 1 (some "confirmed") none).2 rfl⟩

/-- C2: a checkout POST with a non-empty cart, an authenticated caller, all
shipping fields present and a valid payment method creates exactly one PENDING
Order whose total is the sum over the resolved cart lines (silently dropping
missing or unpublished items) of live catalog price times quantity — the cart
lines carry no price field, so no client price can enter — one OrderItem per
resolved line snapshotting that price and quantity, and exactly one PENDING
Transaction over the same amount linked to the order, then clears the cart. -/
theorem C2_checkout_spec (catalog : Catalog) (cart : List CartLine) (uid : Nat)
    (form : CheckoutForm) (oid : Nat) (onum uuid : String) (pm : PaymentMethod)
    (hcart : cart ≠ [])
    (hfields : checkoutFieldsPresent form = true)
    (hpm : (form.payment_method).bind PaymentMethod.ofValue? = some pm) :
    ∃ order tx,
      checkout catalog cart (some uid) form oid onum uuid =
        (applyStockAll catalog (cartContents catalog cart), [],
          .success order ((cartContents catalog cart).map (mkOrderItem oid)) tx) ∧
      order.status = .pending ∧
      order.total_amount =
        ((cartContents catalog cart).map (fun l => l.price * (l.quantity : ℚ))).sum ∧
      order.customer_id = some uid ∧
      order.id = oid ∧
      (∀ l ∈ cartContents catalog cart,
        (mkOrderItem oid l).order_id = oid ∧ (mkOrderItem oid l).price = l.price ∧
        (mkOrderItem oid l).quantity = l.quantity) ∧
      tx.status = .pending ∧
      tx.amount = order.total_amount ∧
      tx.order_id = some oid ∧
      tx.payment_method = some pm := by
  have htotal : cartTotal catalog cart =
      ((cartContents catalog cart).map (fun l => l.price * (l.quantity : ℚ))).sum := by
    unfold cartTotal
    rw [foldl_add_eq_add_sum, zero_add]
  unfold checkout
  rw [if_neg (by simp [List.isEmpty_iff, hcart])]
  dsimp only
  rw [if_neg (by simp [hfields]), hpm]
  exact ⟨_, _, rfl, rfl, htotal, rfl, rfl, fun l _ => ⟨rfl, rfl, rfl⟩, rfl, rfl, rfl, rfl⟩

/-- The published beat with id 5 priced at 20, used in the checkout scenario. -/
def c2_beat : Beat := { id := 5, title := "b5", price := 20, cover_image := "c", is_published := true }

/-- A catalog holding only c2_beat. -/
def c2_catalog : Catalog := { beats := [c2_beat], merchandise := [] }

/-- The cart of the checkout scenario: one beat line, quantity 1. -/
def c2_cart : List CartLine := [{ type := "beat", id := 5, quantity := 1 }]

/-- A fully filled checkout form selecting paypal. -/
def c2_form : CheckoutForm :=
  { shipping_address := some "addr", shipping_city := some "city",
    shipping_country := some "ke", shipping_postal_code := some "00100",
    payment_method := some "paypal", notes := none }

/-- C2 witness: the spec scenario — beat 5 at quantity 1 checks out into a PENDING
order of total 20 with one order item and one PENDING paypal transaction of 20,
and the cart comes back empty. -/
theorem C2_witness :
    (c2_cart ≠ [] ∧ checkoutFieldsPresent c2_form = true ∧
      (c2_form.payment_method).bind PaymentMethod.ofValue? = some PaymentMethod.paypal) ∧
    ∃ order tx,
      checkout c2_catalog c2_cart (some 2) c2_form 1 "DR1" "u1" =
        (applyStockAll c2_catalog (cartContents c2_catalog c2_cart), [],
          .success order ((cartContents c2_catalog c2_cart).map (mkOrderItem 1)) tx) ∧
      order.status = .pending ∧
      order.total_amount =
        ((cartContents c2_catalog c2_cart).map (fun l => l.price * (l.quantity : ℚ))).sum ∧
      order.customer_id = some 2 ∧
      order.id = 1 ∧
      (∀ l ∈ cartContents c2_catalog c2_cart,
        (mkOrderItem 1 l).order_id = 1 ∧ (mkOrderItem 1 l).price = l.price ∧
        (mkOrderItem 1 l).quantity = l.quantity) ∧
      tx.status = .pending ∧
      tx.amount = order.total_amount ∧
      tx.order_id = some 1 ∧
      tx.payment_method = some PaymentMethod.paypal :=
  ⟨⟨by decide, rfl, rfl⟩,
   C2_checkout_spec c2_catalog c2_cart 2 c2_form 1 "DR1" "u1" PaymentMethod.paypal
     (by decide) rfl rfl⟩

/-- The scenario total evaluates concretely: resolved line price 20, quantity 1,
total 20, matching the literal expectation of the spec scenario. -/
theorem c2_scenario_total :
    ((cartContents c2_catalog c2_cart).map (fun l => l.price * (l.quantity : ℚ))).sum = 20 := by
  norm_num [cartContents, c2_catalog, c2_cart, resolveLine, c2_beat, List.filterMap]

end DonRecords
